import Mathlib

/-!
Shallow embedding of `src/js_modules/dagit/src/JobUtils.tsx` (the run-status
projector `JobRunStatus` and the composed query fragment `JOB_STATE_FRAGMENT`)
together with the external collaborator interfaces the spec describes.
-/

/-- Run summary as requested by the fragment: `runs(limit: 1) { id runId status }`. -/
structure RunSummary where
  id : String
  runId : String
  status : String
deriving Repr, DecidableEq

/-- Tagged union `jobSpecificData`, keyed by the job type, as selected by the
fragment: `... on SensorJobData { lastRunKey }` and
`... on ScheduleJobData { cronSchedule }`. -/
inductive JobSpecificData where
  | sensorData (lastRunKey : Option String)
  | scheduleData (cronSchedule : String)
deriving Repr, DecidableEq

/-- The `JobStateFragment` snapshot shape (from `src/types/JobStateFragment`,
mirroring the fields the composed fragment requests). `repositoryOrigin` and
tick payloads are opaque to this slice and kept as strings. -/
structure JobStateFragment where
  id : String
  name : String
  jobType : String
  status : String
  repositoryOrigin : String
  jobSpecificData : JobSpecificData
  runs : List RunSummary
  ticks : List String
  runningCount : Int
deriving Repr, DecidableEq

/-- Modelled from the spec: `Colors.GRAY4` is an opaque color token owned by the
external design system (`@blueprintjs/core`), referenced by value only. -/
def Colors.GRAY4 : String := "GRAY4"

/-- Modelled from the spec: `FontFamily.monospace` is an opaque typography token
owned by the external style module (`src/ui/styles`). -/
def FontFamily.monospace : String := "monospace"

/-- Modelled from the spec: the external title formatter `titleForRun` from
`src/runs/RunUtils` is not part of this slice; the spec promises only a pure,
deterministic `titleFor(runId) -> string` giving a short human-readable title
derived from the run id. Modelled as the leading segment of the run id. The
source calls it as `titleForRun({runId: run.runId})`; here it takes the run id
string directly. -/
def titleForRun (runId : String) : String :=
  (runId.splitOn "-").headD runId

/-- Renderable view values: the shallow embedding of the JSX elements the
projector can produce. `runStatusGlyph` stands for the external
`<RunStatus status=.../>` collaborator keyed by the status value;
`pythonErrorInfo` stands for the external error-display collaborator
(`PythonErrorInfo`), included so that absence of error output is expressible. -/
inductive View where
  | span (style : List (String × String)) (text : String)
  | runStatusGlyph (status : String)
  | pythonErrorInfo (message : String)
  | link (dest : String) (target : String) (rel : String) (child : View)
  | group (direction : String) (spacing : Nat) (alignItems : String) (children : List View)
deriving Repr

/-- The run-status projector `JobRunStatus` from `JobUtils.tsx`:
if `runs` is empty it renders `<span style=color:GRAY4>None</span>`, otherwise
it renders a row `Group` with a `RunStatus` glyph for `runs[0].status` and a
`Link` to the run detail page for `runs[0].runId`, opening in a new context,
labelled by the monospace title of the run id. -/
def JobRunStatus (jobState : JobStateFragment) : View :=
  match jobState.runs with
  | [] => View.span [("color", Colors.GRAY4)] "None"
  | run :: _ =>
    View.group "row" 4 "center"
      [View.runStatusGlyph run.status,
       View.link ("/instance/runs/" ++ run.runId) "_blank" "noreferrer"
         (View.span [("fontFamily", FontFamily.monospace)] (titleForRun run.runId))]

/-- Collected summary of a `link` node: destination, target attribute, rel
attribute and the child view carrying the visible label. -/
structure LinkView where
  dest : String
  target : String
  rel : String
  child : View
deriving Repr

mutual

/-- All status keys of `runStatusGlyph` nodes occurring in a view. -/
def View.statusKeys : View → List String
  | .span _ _ => []
  | .runStatusGlyph s => [s]
  | .pythonErrorInfo _ => []
  | .link _ _ _ c => c.statusKeys
  | .group _ _ _ cs => viewsStatusKeys cs

def viewsStatusKeys : List View → List String
  | [] => []
  | v :: vs => v.statusKeys ++ viewsStatusKeys vs

end

mutual

/-- All link nodes occurring in a view. -/
def View.links : View → List LinkView
  | .span _ _ => []
  | .runStatusGlyph _ => []
  | .pythonErrorInfo _ => []
  | .link d t r c => ⟨d, t, r, c⟩ :: c.links
  | .group _ _ _ cs => viewsLinks cs

def viewsLinks : List View → List LinkView
  | [] => []
  | v :: vs => v.links ++ viewsLinks vs

end

mutual

/-- Whether a view contains an error-display node anywhere. -/
def View.hasErrorNode : View → Bool
  | .span _ _ => false
  | .runStatusGlyph _ => false
  | .pythonErrorInfo _ => true
  | .link _ _ _ c => c.hasErrorNode
  | .group _ _ _ cs => viewsHaveErrorNode cs

def viewsHaveErrorNode : List View → Bool
  | [] => false
  | v :: vs => v.hasErrorNode || viewsHaveErrorNode vs

end

/-- GraphQL selection-set syntax, enough to embed `JOB_STATE_FRAGMENT`:
a field with optional integer arguments and a sub-selection, a named fragment
spread, or an inline fragment on a type condition. -/
inductive Selection where
  | field (name : String) (args : List (String × Nat)) (sub : List Selection)
  | fragmentSpread (name : String)
  | inlineFragment (typeCond : String) (sub : List Selection)
deriving Repr

/-- A composed fragment document: the named fragment with its type condition and
selection set, plus the names of the collaborator fragment definitions
interpolated (appended) into the composed document text. -/
structure FragmentDef where
  name : String
  onType : String
  selections : List Selection
  interpolated : List String
deriving Repr

/-- The composed query fragment `JOB_STATE_FRAGMENT` from `JobUtils.tsx`,
transcribed selection by selection (including the repeated `status` field and
the three interpolated collaborator fragment definitions). -/
def JOB_STATE_FRAGMENT : FragmentDef :=
  { name := "JobStateFragment"
    onType := "JobState"
    selections :=
      [Selection.field "id" [] [],
       Selection.field "name" [] [],
       Selection.field "jobType" [] [],
       Selection.field "status" [] [],
       Selection.field "repositoryOrigin" []
         [Selection.fragmentSpread "RepositoryOriginFragment"],
       Selection.field "jobSpecificData" []
         [Selection.inlineFragment "SensorJobData" [Selection.field "lastRunKey" [] []],
          Selection.inlineFragment "ScheduleJobData" [Selection.field "cronSchedule" [] []]],
       Selection.field "runs" [("limit", 1)]
         [Selection.field "id" [] [],
          Selection.field "runId" [] [],
          Selection.field "status" [] []],
       Selection.field "status" [] [],
       Selection.field "ticks" [("limit", 1)]
         [Selection.field "id" [] [],
          Selection.fragmentSpread "TickTagFragment"],
       Selection.field "runningCount" [] []]
    interpolated :=
      ["RepositoryOriginFragment", "PythonErrorFragment", "TickTagFragment"] }

/-- Names of the fields declared directly at one nesting level. -/
def levelFieldNames (sels : List Selection) : List String :=
  sels.filterMap fun s =>
    match s with
    | .field n _ _ => some n
    | _ => none

/-- Sub-selection of the first field with the given name at this level
(empty if absent). -/
def fieldSub : List Selection → String → List Selection
  | [], _ => []
  | .field n _ sub :: rest, m => if n = m then sub else fieldSub rest m
  | _ :: rest, m => fieldSub rest m

/-- Arguments of the first field with the given name at this level. -/
def fieldArgs : List Selection → String → Option (List (String × Nat))
  | [], _ => none
  | .field n a _ :: rest, m => if n = m then some a else fieldArgs rest m
  | _ :: rest, m => fieldArgs rest m

mutual

/-- All fragment-spread names occurring anywhere in a selection. -/
def Selection.spreadNames : Selection → List String
  | .field _ _ sub => selsSpreadNames sub
  | .fragmentSpread n => [n]
  | .inlineFragment _ sub => selsSpreadNames sub

/-- All fragment-spread names occurring anywhere in a selection set. -/
def selsSpreadNames : List Selection → List String
  | [] => []
  | s :: rest => s.spreadNames ++ selsSpreadNames rest

end

/-- Whether a list of names has no duplicates. -/
def namesNodup : List String → Bool
  | [] => true
  | x :: xs => !(xs.contains x) && namesNodup xs

mutual

/-- Whether every nesting level strictly below a selection is duplicate-free. -/
def Selection.subDupFree : Selection → Bool
  | .field _ _ sub => namesNodup (levelFieldNames sub) && selsSubDupFree sub
  | .fragmentSpread _ => true
  | .inlineFragment _ sub => namesNodup (levelFieldNames sub) && selsSubDupFree sub

/-- Whether every nesting level strictly below each selection is duplicate-free. -/
def selsSubDupFree : List Selection → Bool
  | [] => true
  | s :: rest => s.subDupFree && selsSubDupFree rest

end

/-- Whether every nesting level of a selection set, the top level included,
declares each field name at most once. -/
def fragDupFree (sels : List Selection) : Bool :=
  namesNodup (levelFieldNames sels) && selsSubDupFree sels

/-- The six base fields the spec enumerates for the composed fragment. -/
def sixBaseFields : List String :=
  ["id", "name", "jobType", "status", "jobSpecificData", "runningCount"]

/-- The three collaborator fragments the composed fragment depends on. -/
def collaboratorFragments : List String :=
  ["RepositoryOriginFragment", "TickTagFragment", "PythonErrorFragment"]

/-- Top-level field names declared by the composed fragment. -/
def topLevelFieldNames : List String :=
  levelFieldNames JOB_STATE_FRAGMENT.selections

/-- Fragment-spread names occurring inside the composed fragment body. -/
def bodySpreadNames : List String :=
  selsSpreadNames JOB_STATE_FRAGMENT.selections

/-- Example run summary used by the concrete witnesses. -/
def runExample : RunSummary := ⟨"r1", "abc123", "SUCCESS"⟩

/-- Second example run summary, for the contract-violation witnesses. -/
def runExample2 : RunSummary := ⟨"r2", "def456", "FAILURE"⟩

/-- Example snapshot with no runs. -/
def jsEmpty : JobStateFragment :=
  ⟨"j1", "myJob", "SCHEDULE", "RUNNING", "origin1",
   JobSpecificData.scheduleData "0 0 * * *", [], [], 0⟩

/-- Example snapshot with exactly one run. -/
def jsOne : JobStateFragment :=
  ⟨"j1", "myJob", "SENSOR", "RUNNING", "origin1",
   JobSpecificData.sensorData none, [runExample], [], 1⟩

/-- Example snapshot with two runs (windowing contract violated). -/
def jsTwo : JobStateFragment :=
  ⟨"j1", "myJob", "SENSOR", "RUNNING", "origin1",
   JobSpecificData.sensorData none, [runExample, runExample2], [], 1⟩

/-- Example snapshot agreeing with `jsOne` on `runs` only. -/
def jsOneAlt : JobStateFragment :=
  ⟨"j2", "otherJob", "SCHEDULE", "STOPPED", "origin2",
   JobSpecificData.scheduleData "30 6 * * 1", [runExample], ["t1"], 5⟩

/-- C1: for every snapshot with non-empty runs, the projector's output carries
exactly one status element, keyed by `runs[0].status`, and exactly one link,
whose target encodes `runs[0].runId` and whose visible label is the title
formatter applied to `runs[0].runId`. -/
theorem C1_run_state_projection (js : JobStateFragment) (run : RunSummary)
    (rest : List RunSummary) (h : js.runs = run :: rest) :
    (JobRunStatus js).statusKeys = [run.status] ∧
    (JobRunStatus js).links =
      [⟨"/instance/runs/" ++ run.runId, "_blank", "noreferrer",
        View.span [("fontFamily", FontFamily.monospace)] (titleForRun run.runId)⟩] := by
  simp [JobRunStatus, h, View.statusKeys, viewsStatusKeys, View.links, viewsLinks]

/-- Witness for C1 at the concrete one-run snapshot. -/
theorem C1_run_state_projection_witness :
    jsOne.runs = runExample :: [] ∧
    ((JobRunStatus jsOne).statusKeys = [runExample.status] ∧
     (JobRunStatus jsOne).links =
       [⟨"/instance/runs/" ++ runExample.runId, "_blank", "noreferrer",
         View.span [("fontFamily", FontFamily.monospace)] (titleForRun runExample.runId)⟩]) :=
  ⟨rfl, C1_run_state_projection jsOne runExample [] rfl⟩

/-- C2: for every snapshot with empty runs, the output is the Empty State: the
muted "None" span, with no link and no status badge, whatever the other
fields are. -/
theorem C2_empty_state (js : JobStateFragment) (h : js.runs = []) :
    JobRunStatus js = View.span [("color", Colors.GRAY4)] "None" ∧
    (JobRunStatus js).links = [] ∧
    (JobRunStatus js).statusKeys = [] := by
  simp [JobRunStatus, h, View.links, View.statusKeys]

/-- Witness for C2 at the concrete empty-runs snapshot. -/
theorem C2_empty_state_witness :
    jsEmpty.runs = [] ∧
    (JobRunStatus jsEmpty = View.span [("color", Colors.GRAY4)] "None" ∧
     (JobRunStatus jsEmpty).links = [] ∧
     (JobRunStatus jsEmpty).statusKeys = []) :=
  ⟨rfl, C2_empty_state jsEmpty rfl⟩

/-- C3: when runs has more than one element the output equals the output on the
same snapshot with runs replaced by `[runs[0]]`; later elements never matter. -/
theorem C3_later_runs_ignored (js : JobStateFragment) (run : RunSummary)
    (rest : List RunSummary) (h : js.runs = run :: rest) :
    JobRunStatus js = JobRunStatus { js with runs := [run] } := by
  simp [JobRunStatus, h]

/-- Witness for C3 at the concrete two-run snapshot. -/
theorem C3_later_runs_ignored_witness :
    jsTwo.runs = runExample :: [runExample2] ∧
    JobRunStatus jsTwo = JobRunStatus { jsTwo with runs := [runExample] } :=
  ⟨rfl, C3_later_runs_ignored jsTwo runExample [runExample2] rfl⟩

/-- C4 counterexample: the claim as stated is false on `JOB_STATE_FRAGMENT`.
The field set is indeed a strict superset of the six base fields plus the
collaborator fragments' fields, but the top nesting level declares the field
`status` twice, so the no-duplicates conjunct fails. -/
theorem C4_duplicate_status_counterexample :
    ¬ (sixBaseFields.all (fun n => topLevelFieldNames.contains n) = true ∧
       collaboratorFragments.all
         (fun n => bodySpreadNames.contains n || JOB_STATE_FRAGMENT.interpolated.contains n) = true ∧
       topLevelFieldNames.contains "runs" = true ∧
       sixBaseFields.contains "runs" = false ∧
       fragDupFree JOB_STATE_FRAGMENT.selections = true) := by
  decide

/-- C4 amended: the composed fragment's field set is a strict superset of the
six base fields together with the three collaborator fragments' fields; every
nesting level below the top is duplicate-free, and at the top level the only
duplicated field declaration is `status`, which occurs exactly twice. -/
theorem C4_amended_fields_superset :
    sixBaseFields.all (fun n => topLevelFieldNames.contains n) = true ∧
    collaboratorFragments.all
      (fun n => bodySpreadNames.contains n || JOB_STATE_FRAGMENT.interpolated.contains n) = true ∧
    topLevelFieldNames.contains "runs" = true ∧
    sixBaseFields.contains "runs" = false ∧
    selsSubDupFree JOB_STATE_FRAGMENT.selections = true ∧
    topLevelFieldNames.count "status" = 2 ∧
    topLevelFieldNames.all
      (fun n => n == "status" || topLevelFieldNames.count n == 1) = true := by
  decide

/-- C5 counterexample: the claim as stated is false on `JOB_STATE_FRAGMENT`.
The origin fragment is spread under `repositoryOrigin` and the tick-tag
fragment under `ticks`, but no spread of the python-error fragment occurs
anywhere inside the fragment body. -/
theorem C5_error_spread_counterexample :
    ¬ ("RepositoryOriginFragment" ∈
         selsSpreadNames (fieldSub JOB_STATE_FRAGMENT.selections "repositoryOrigin") ∧
       "TickTagFragment" ∈
         selsSpreadNames (fieldSub JOB_STATE_FRAGMENT.selections "ticks") ∧
       "PythonErrorFragment" ∈ selsSpreadNames JOB_STATE_FRAGMENT.selections) := by
  decide

/-- C5 amended: the fragment body spreads the origin fragment under
`repositoryOrigin` and the tick-tag fragment under `ticks`; the python-error
fragment is not spread anywhere in the body, its definition is only
interpolated into the composed document (its spread point lies inside the
external tick-tag fragment). -/
theorem C5_amended_spread_points :
    "RepositoryOriginFragment" ∈
      selsSpreadNames (fieldSub JOB_STATE_FRAGMENT.selections "repositoryOrigin") ∧
    "TickTagFragment" ∈
      selsSpreadNames (fieldSub JOB_STATE_FRAGMENT.selections "ticks") ∧
    "PythonErrorFragment" ∉ selsSpreadNames JOB_STATE_FRAGMENT.selections ∧
    "PythonErrorFragment" ∈ JOB_STATE_FRAGMENT.interpolated := by
  decide

/-- C6: the projector is total and error-free: on every snapshot its output
contains no error-display node, and it is one of exactly two normal renderable
forms, the "None" span for empty runs or the run-state group for `runs[0]`. -/
theorem C6_projector_total (js : JobStateFragment) :
    (JobRunStatus js).hasErrorNode = false ∧
    (JobRunStatus js = View.span [("color", Colors.GRAY4)] "None" ∨
      ∃ run rest, js.runs = run :: rest ∧
        JobRunStatus js =
          View.group "row" 4 "center"
            [View.runStatusGlyph run.status,
             View.link ("/instance/runs/" ++ run.runId) "_blank" "noreferrer"
               (View.span [("fontFamily", FontFamily.monospace)] (titleForRun run.runId))]) := by
  cases h : js.runs with
  | nil =>
    refine ⟨?_, Or.inl ?_⟩ <;>
      simp [JobRunStatus, h, View.hasErrorNode]
  | cons run rest =>
    refine ⟨?_, Or.inr ⟨run, rest, rfl, ?_⟩⟩ <;>
      simp [JobRunStatus, h, View.hasErrorNode, viewsHaveErrorNode]

/-- C7: for every snapshot with non-empty runs, the (unique) link in the output
opens in a new browsing context: its target attribute is "_blank" (with rel
"noreferrer"), not a replace-in-place navigation. -/
theorem C7_link_new_context (js : JobStateFragment) (run : RunSummary)
    (rest : List RunSummary) (h : js.runs = run :: rest) :
    (JobRunStatus js).links.map LinkView.target = ["_blank"] ∧
    (JobRunStatus js).links.map LinkView.rel = ["noreferrer"] := by
  simp [JobRunStatus, h, View.links, viewsLinks]

/-- Witness for C7 at the concrete one-run snapshot. -/
theorem C7_link_new_context_witness :
    jsOne.runs = runExample :: [] ∧
    ((JobRunStatus jsOne).links.map LinkView.target = ["_blank"] ∧
     (JobRunStatus jsOne).links.map LinkView.rel = ["noreferrer"]) :=
  ⟨rfl, C7_link_new_context jsOne runExample [] rfl⟩

/-- C8: for every snapshot with non-empty runs, the link target is exactly the
string "/instance/runs/" concatenated with `runs[0].runId`. -/
theorem C8_link_target_shape (js : JobStateFragment) (run : RunSummary)
    (rest : List RunSummary) (h : js.runs = run :: rest) :
    (JobRunStatus js).links.map LinkView.dest = ["/instance/runs/" ++ run.runId] := by
  simp [JobRunStatus, h, View.links, viewsLinks]

/-- Witness for C8 at the concrete one-run snapshot. -/
theorem C8_link_target_shape_witness :
    jsOne.runs = runExample :: [] ∧
    (JobRunStatus jsOne).links.map LinkView.dest = ["/instance/runs/" ++ runExample.runId] :=
  ⟨rfl, C8_link_target_shape jsOne runExample [] rfl⟩

/-- C9: the projector's output depends only on the `runs` field: any two
snapshots agreeing on `runs` yield identical outputs, whatever their other
fields are. -/
theorem C9_depends_only_on_runs (a b : JobStateFragment) (h : a.runs = b.runs) :
    JobRunStatus a = JobRunStatus b := by
  simp [JobRunStatus, h]

/-- Witness for C9 at two concrete snapshots differing in every field but
`runs`. -/
theorem C9_depends_only_on_runs_witness :
    jsOne.runs = jsOneAlt.runs ∧ JobRunStatus jsOne = JobRunStatus jsOneAlt :=
  ⟨rfl, C9_depends_only_on_runs jsOne jsOneAlt rfl⟩

/-- C10: the composed fragment itself asks for the windowing: it declares
`runs` with argument limit 1 and `ticks` with argument limit 1. -/
theorem C10_fragment_limits :
    fieldArgs JOB_STATE_FRAGMENT.selections "runs" = some [("limit", 1)] ∧
    fieldArgs JOB_STATE_FRAGMENT.selections "ticks" = some [("limit", 1)] := by
  decide
